import Mathlib

/-!
Verification development for the PortfolioPath Monte Carlo simulation engine
(backend/app/services/monte_carlo.py).

The Python code is shallowly embedded over exact rationals.  Floating point
numbers are modelled as exact rationals; decimal literals in the source are
taken at face value (0.04 is 1/25, 1e-8 is 1/100000000, and so on).

External library primitives (numpy) are modelled as follows:
- the global numpy random stream is modelled by a `RandStream` record of draw
  functions, one substream per consumption site of the source (innovations,
  regime transition uniforms, jump gate uniforms, jump sizes); the draws are
  indexed the same way the source indexes the generated arrays;
- numeric primitives that are irrational over the rationals (np.sqrt) and
  the matrix factorizations (np.linalg.cholesky returning either a factor or
  raising LinAlgError, np.linalg.eigh) are fields of a `NumPrims` record,
  universally quantified in the theorems;
- np.percentile (linear interpolation, the numpy default) and np.linspace
  with integer truncation are implemented exactly;
- Python round(x, n) (round half to even) is implemented exactly as
  `pyRound`.
-/

/-- Rounding of a rational to an integer with ties to even, modelling
Python round() and np.round on an exact value. -/
def rndHalfEven (x : ℚ) : ℤ :=
  if Int.fract x < 1/2 then ⌊x⌋
  else if (1:ℚ)/2 < Int.fract x then ⌊x⌋ + 1
  else if ⌊x⌋ % 2 = 0 then ⌊x⌋ else ⌊x⌋ + 1

/-- Python round(x, n): rounding to n decimal places with ties to even. -/
def pyRound (x : ℚ) (n : ℕ) : ℚ :=
  (rndHalfEven (x * 10 ^ n) : ℚ) / 10 ^ n

/-- Arithmetic mean of a list (np.mean); 0 for the empty list. -/
def listMean (l : List ℚ) : ℚ := l.sum / l.length

/-- Minimum of a list (np.min); 0 for the empty list. -/
def listMin (l : List ℚ) : ℚ :=
  match l with
  | [] => 0
  | x :: xs => xs.foldl min x

/-- Maximum of a list (np.max); 0 for the empty list. -/
def listMax (l : List ℚ) : ℚ :=
  match l with
  | [] => 0
  | x :: xs => xs.foldl max x

/-- np.percentile with the default linear interpolation between order
statistics: sort the data, take rank p/100 * (n-1), and interpolate
linearly between the two neighbouring order statistics. -/
def percentileQ (l : List ℚ) (p : ℚ) : ℚ :=
  let s := List.insertionSort (· ≤ ·) l
  let rank : ℚ := p / 100 * ((l.length : ℚ) - 1)
  let k : ℕ := (⌊rank⌋).toNat
  let d : ℚ := rank - (k : ℚ)
  s.getD k 0 + d * (s.getD (k + 1) (s.getD k 0) - s.getD k 0)

/-- Sum of f over indices 0, ..., n-1 (np.sum over an axis). -/
def sumRange (n : ℕ) (f : ℕ → ℚ) : ℚ :=
  match n with
  | 0 => 0
  | (m + 1) => sumRange m f + f m

/-- Error kinds observable from the engine.  The source can raise numpy
LinAlgError from the second Cholesky attempt; the NumericError named by the
spec does not occur anywhere in the repository, but the constructor is
included so that statements about it can be made. -/
inductive ErrKind
  | linAlgError
  | numericError
deriving DecidableEq

/-- Parameters for a single asset (dataclass AssetParameters). -/
structure AssetParameters where
  ticker : String
  weight : ℚ
  mean_return : ℚ
  volatility : ℚ

/-- Configuration for the Monte Carlo simulation (dataclass SimulationConfig). -/
structure SimulationConfig where
  initial_value : ℚ
  time_horizon : ℕ
  num_simulations : ℕ
  use_correlation : Bool
  use_fat_tails : Bool
  use_garch : Bool
  use_regime_switching : Bool
  use_jump_diffusion : Bool
  df : ℕ

/-- Risk and return metrics dictionary produced by _calculate_metrics. -/
structure Metrics where
  meanReturn : ℚ
  volatility : ℚ
  sharpeRatio : ℚ
  var95 : ℚ
  var99 : ℚ
  expectedShortfall : ℚ
  skewness : ℚ
  kurtosis : ℚ
  probProfit : ℚ

/-- Percentile dictionary produced by _calculate_percentiles. -/
structure Percentiles where
  p5 : ℚ
  p10 : ℚ
  p25 : ℚ
  p50 : ℚ
  p75 : ℚ
  p90 : ℚ
  p95 : ℚ
  minV : ℚ
  maxV : ℚ
  meanV : ℚ

/-- Drawdown dictionary produced by _calculate_drawdowns. -/
structure Drawdowns where
  medianMaxDrawdown : ℚ
  p90MaxDrawdown : ℚ
  p95MaxDrawdown : ℚ
  worstDrawdown : ℚ
  avgMaxDrawdown : ℚ

/-- Results of run_simulation (dataclass SimulationResult).  The paths array
of shape (num_simulations, time_horizon + 1) is modelled as a function of
(path index, step index) together with the two shape numbers. -/
structure SimulationResult where
  paths : ℕ → ℕ → ℚ
  final_values : ℕ → ℚ
  metrics : Metrics
  percentiles : Percentiles
  drawdowns : Drawdowns
  numSims : ℕ
  horizon : ℕ

/-- The numpy global random stream, split by consumption site.  zT df is the
stream of np.random.standard_t(df) draws, zN of np.random.standard_normal
draws, both indexed (path, step, asset) like the generated arrays;
transitions are the np.random.random uniforms of _apply_regime_switching
indexed (path, step); jumpU the uniforms gating jumps and jumpN the
np.random.normal(jump_mean, jump_vol) draws of _apply_jump_diffusion. -/
structure RandStream where
  zT : ℕ → ℕ → ℕ → ℕ → ℚ
  zN : ℕ → ℕ → ℕ → ℚ
  transitions : ℕ → ℕ → ℚ
  jumpU : ℕ → ℕ → ℕ → ℚ
  jumpN : ℕ → ℕ → ℕ → ℚ

/-- External numeric primitives: np.sqrt on a rational-modelled float,
np.linalg.cholesky on an n by n matrix (none models a raised LinAlgError)
and np.linalg.eigh returning (eigenvalues, eigenvector matrix with the
eigenvectors as columns). -/
structure NumPrims where
  sqrt : ℚ → ℚ
  chol : (ℕ → ℕ → ℚ) → ℕ → Option (ℕ → ℕ → ℚ)
  eigh : (ℕ → ℕ → ℚ) → ℕ → ((ℕ → ℚ) × (ℕ → ℕ → ℚ))

/-- Ticker classes used by _generate_correlation_matrix. -/
def equityTickers : List String :=
  ["SPY", "QQQ", "VTI", "IWM", "AAPL", "MSFT", "GOOGL",
   "AMZN", "NVDA", "META", "TSLA", "AMD", "INTC", "NFLX"]

def bondTickers : List String := ["BND", "AGG", "TLT"]

def commodityTickers : List String := ["GLD", "SLV", "USO"]

def techTickers : List String := ["AAPL", "MSFT", "GOOGL", "NVDA", "META", "AMD", "QQQ"]

/-- Pairwise correlation assigned by _generate_correlation_matrix for an
ordered pair of distinct tickers. -/
def pairCorrelation (t1 t2 : String) : ℚ :=
  if t1 ∈ equityTickers ∧ t2 ∈ equityTickers then
    if t1 ∈ techTickers ∧ t2 ∈ techTickers then 75/100 else 65/100
  else if t1 ∈ bondTickers ∧ t2 ∈ bondTickers then 85/100
  else if (t1 ∈ equityTickers ∧ t2 ∈ bondTickers) ∨ (t2 ∈ equityTickers ∧ t1 ∈ bondTickers) then -25/100
  else if t1 ∈ commodityTickers ∨ t2 ∈ commodityTickers then 10/100
  else 50/100

/-- Synthesized correlation matrix (_generate_correlation_matrix): identity
diagonal, class-based correlation off the diagonal, filled symmetrically
from the pair with the smaller index first. -/
def generateCorrelationMatrix (tickers : List String) : ℕ → ℕ → ℚ :=
  fun i j =>
    if i = j then 1
    else pairCorrelation (tickers.getD (min i j) "") (tickers.getD (max i j) "")

/-- The eigenvalue-repaired matrix of _cholesky_decomposition:
eigenvectors @ diag(max(eigenvalues, 1e-8)) @ eigenvectors.T. -/
def clampedMatrix (prims : NumPrims) (n : ℕ) (m : ℕ → ℕ → ℚ) : ℕ → ℕ → ℚ :=
  let ev := (prims.eigh m n).1
  let q := (prims.eigh m n).2
  fun i j => sumRange n (fun k => q i k * max (ev k) (1/100000000) * q j k)

/-- _cholesky_decomposition: try np.linalg.cholesky; on LinAlgError clamp
the eigenvalues to at least 1e-8, reassemble, and try again.  A failure of
the second attempt is an uncaught numpy LinAlgError. -/
def choleskyDecomposition (prims : NumPrims) (n : ℕ) (m : ℕ → ℕ → ℚ) :
    Except ErrKind (ℕ → ℕ → ℚ) :=
  match prims.chol m n with
  | some l => Except.ok l
  | none =>
    match prims.chol (clampedMatrix prims n m) n with
    | some l => Except.ok l
    | none => Except.error ErrKind.linAlgError

/-- _generate_random_returns: raw draws from np.random.standard_t(df) when
fat tails are enabled, else from np.random.standard_normal.  No rescaling
is applied in either case. -/
def generateRandomReturns (rand : RandStream) (useFatTails : Bool) (df : ℕ) :
    ℕ → ℕ → ℕ → ℚ :=
  if useFatTails then rand.zT df else rand.zN

/-- Asset lookup with a dummy default (indices stay in range in the code). -/
def assetAt (assets : List AssetParameters) (a : ℕ) : AssetParameters :=
  assets.getD a ⟨"", 0, 0, 0⟩

/-- Innovations after the optional correlation step (_apply_correlation:
returns @ cholesky_matrix.T). -/
def correlatedReturns (rand : RandStream) (config : SimulationConfig) (n : ℕ)
    (cholOpt : Option (ℕ → ℕ → ℚ)) : ℕ → ℕ → ℕ → ℚ :=
  let raw := generateRandomReturns rand config.use_fat_tails config.df
  match cholOpt with
  | some l => fun s t a => sumRange n (fun k => raw s t k * l a k)
  | none => raw

/-- The current_variance state of _apply_garch as observed when
volatilities[:, t, :] is assigned during iteration t.  The source assigns
the volatility for step t before updating the variance with the shock of
step t - 1, so the variance used at step t incorporates shocks up to step
t - 2 only (steps 0 and 1 both see the base variance). -/
def garchCurrentVariance (shock : ℕ → ℚ) (baseVol : ℚ) : ℕ → ℚ
  | 0 => baseVol ^ 2
  | 1 => baseVol ^ 2
  | (t + 2) => 1/1000000 + 1/10 * (shock t * baseVol) ^ 2
      + 17/20 * garchCurrentVariance shock baseVol (t + 1)

/-- The volatility tensor: the GARCH volatilities of _apply_garch when
use_garch is on, else the per-asset volatility broadcast. -/
def volatilityTensor (prims : NumPrims) (assets : List AssetParameters)
    (config : SimulationConfig) (corrRet : ℕ → ℕ → ℕ → ℚ) : ℕ → ℕ → ℕ → ℚ :=
  if config.use_garch then
    fun s t a => prims.sqrt
      (garchCurrentVariance (fun u => corrRet s u a) (assetAt assets a).volatility t)
  else
    fun _ _ a => (assetAt assets a).volatility

/-- Markov regime state of _apply_regime_switching (1 = bull, 0 = bear):
start in bull; from bull move to bear when the uniform for the step is
below 0.05, from bear move to bull when it is below 0.10. -/
def regimeState (trans : ℕ → ℕ → ℚ) (s : ℕ) : ℕ → ℕ
  | 0 => 1
  | (t + 1) =>
    if regimeState trans s t = 1 then
      (if trans s (t + 1) < 5/100 then 0 else 1)
    else
      (if trans s (t + 1) < 10/100 then 1 else 0)

/-- Drift multiplier from the regime layer (1.5 in bull, -0.5 in bear), or
the constant 1 when regime switching is off. -/
def meanMultOf (config : SimulationConfig) (rand : RandStream) : ℕ → ℕ → ℚ :=
  if config.use_regime_switching then
    fun s t => if regimeState rand.transitions s t = 1 then 15/10 else -5/10
  else fun _ _ => 1

/-- Volatility multiplier from the regime layer (0.7 in bull, 1.8 in bear),
or the constant 1 when regime switching is off. -/
def volMultOf (config : SimulationConfig) (rand : RandStream) : ℕ → ℕ → ℚ :=
  if config.use_regime_switching then
    fun s t => if regimeState rand.transitions s t = 1 then 7/10 else 18/10
  else fun _ _ => 1

/-- Per-asset returns tensor of run_simulation:
random_returns * volatilities * vol_mult + means * mean_mult, plus the
Bernoulli-gated jumps of _apply_jump_diffusion when enabled
(jump_intensity 0.02, sizes drawn from normal(-0.03, 0.04)). -/
def assetReturnsOf (prims : NumPrims) (rand : RandStream) (assets : List AssetParameters)
    (config : SimulationConfig) (cholOpt : Option (ℕ → ℕ → ℚ)) : ℕ → ℕ → ℕ → ℚ :=
  let corrRet := correlatedReturns rand config assets.length cholOpt
  let vol := volatilityTensor prims assets config corrRet
  let mm := meanMultOf config rand
  let vm := volMultOf config rand
  let base := fun s t a =>
    corrRet s t a * vol s t a * vm s t + (assetAt assets a).mean_return * mm s t
  if config.use_jump_diffusion then
    fun s t a => base s t a + (if rand.jumpU s t a < 2/100 then rand.jumpN s t a else 0)
  else base

/-- Portfolio returns of run_simulation: np.sum(asset_returns * weights,
axis=2), the weighted sum over assets. -/
def portfolioReturnsOf (prims : NumPrims) (rand : RandStream) (assets : List AssetParameters)
    (config : SimulationConfig) (cholOpt : Option (ℕ → ℕ → ℚ)) : ℕ → ℕ → ℚ :=
  fun s t =>
    sumRange assets.length
      (fun a => assetReturnsOf prims rand assets config cholOpt s t a
        * (assetAt assets a).weight)

/-- The value path loop of run_simulation: paths[:, 0] = initial_value and
paths[:, t + 1] = paths[:, t] * (1 + portfolio_returns[:, t]). -/
def pathValue (v0 : ℚ) (r : ℕ → ℚ) : ℕ → ℚ
  | 0 => v0
  | (t + 1) => pathValue v0 r t * (1 + r t)

/-- The simple returns of a result list: same expression for the mean used
in several metrics. -/
def stdOfList (prims : NumPrims) (l : List ℚ) : ℚ :=
  prims.sqrt (listMean (l.map (fun r => (r - listMean l) ^ 2)))

/-- Number of simulated paths whose final value reaches the target
(np.sum(result.final_values >= target_value)). -/
def countSuccesses (numSims : ℕ) (finalValues : ℕ → ℚ) (target : ℚ) : ℕ :=
  ((List.range numSims).filter (fun s => decide (target ≤ finalValues s))).length

/-- _calculate_metrics: risk and return metrics over the simple returns,
with shape1 = paths.shape[1] = time_horizon + 1 entering the risk-free
scaling of the Sharpe ratio. -/
def calculateMetrics (prims : NumPrims) (returns : List ℚ) (shape1 : ℕ) : Metrics :=
  let m := listMean returns
  let sd := stdOfList prims returns
  let riskFree : ℚ := 4/100 / 252 * shape1
  let threshold := percentileQ returns 5
  let tail := returns.filter (fun r => decide (r ≤ threshold))
  ⟨pyRound (m * 100) 2,
   pyRound (sd * 100) 2,
   pyRound (if 0 < sd then (m - riskFree) / sd else 0) 3,
   pyRound (percentileQ returns 5 * 100) 2,
   pyRound (percentileQ returns 1 * 100) 2,
   pyRound (listMean tail * 100) 2,
   pyRound (listMean (returns.map (fun r => (r - m) ^ 3)) / sd ^ 3) 4,
   pyRound (listMean (returns.map (fun r => (r - m) ^ 4)) / sd ^ 4) 4,
   pyRound (((returns.filter (fun r => decide (0 < r))).length : ℚ)
     / (returns.length : ℚ) * 100) 1⟩

/-- _calculate_percentiles over the final values. -/
def calculatePercentiles (finals : List ℚ) : Percentiles :=
  ⟨pyRound (percentileQ finals 5) 2,
   pyRound (percentileQ finals 10) 2,
   pyRound (percentileQ finals 25) 2,
   pyRound (percentileQ finals 50) 2,
   pyRound (percentileQ finals 75) 2,
   pyRound (percentileQ finals 90) 2,
   pyRound (percentileQ finals 95) 2,
   pyRound (listMin finals) 2,
   pyRound (listMax finals) 2,
   pyRound (listMean finals) 2⟩

/-- Running maximum along a path (np.maximum.accumulate along axis 1). -/
def runningMax (f : ℕ → ℚ) : ℕ → ℚ
  | 0 => f 0
  | (t + 1) => max (runningMax f t) (f (t + 1))

/-- Per-path maximum drawdown: the minimum over steps of
(paths - running_max) / running_max. -/
def maxDrawdownOf (T : ℕ) (path : ℕ → ℚ) : ℚ :=
  listMin ((List.range (T + 1)).map
    (fun t => (path t - runningMax path t) / runningMax path t))

/-- _calculate_drawdowns over the paths tensor. -/
def calculateDrawdowns (S T : ℕ) (paths : ℕ → ℕ → ℚ) : Drawdowns :=
  let dds := (List.range S).map (fun s => maxDrawdownOf T (paths s))
  ⟨pyRound (percentileQ dds 50 * 100) 2,
   pyRound (percentileQ dds 10 * 100) 2,
   pyRound (percentileQ dds 5 * 100) 2,
   pyRound (listMin dds * 100) 2,
   pyRound (listMean dds * 100) 2⟩

/-- The Cholesky stage of run_simulation: when use_correlation is enabled,
factor the given correlation matrix (or the synthesized one when none is
given); a LinAlgError escaping _cholesky_decomposition aborts the run. -/
def choleskyStep (prims : NumPrims) (assets : List AssetParameters)
    (config : SimulationConfig) (correlation : Option (ℕ → ℕ → ℚ)) :
    Except ErrKind (Option (ℕ → ℕ → ℚ)) :=
  if config.use_correlation then
    Except.map some (choleskyDecomposition prims assets.length
      (match correlation with
       | some m => m
       | none => generateCorrelationMatrix (assets.map (fun a => a.ticker))))
  else Except.ok none

/-- Assembly of the SimulationResult from the portfolio returns, as done at
the end of run_simulation. -/
def buildResult (prims : NumPrims) (rand : RandStream) (assets : List AssetParameters)
    (config : SimulationConfig) (cholOpt : Option (ℕ → ℕ → ℚ)) : SimulationResult :=
  let S := config.num_simulations
  let T := config.time_horizon
  let pr := portfolioReturnsOf prims rand assets config cholOpt
  let paths := fun s t => pathValue config.initial_value (pr s) t
  let finalValues := fun s => paths s T
  let rets := (List.range S).map
    (fun s => (finalValues s - config.initial_value) / config.initial_value)
  ⟨paths, finalValues,
   calculateMetrics prims rets (T + 1),
   calculatePercentiles ((List.range S).map finalValues),
   calculateDrawdowns S T paths,
   S, T⟩

/-- MonteCarloEngine.run_simulation.  The random draws consumed by the
pipeline are supplied by the RandStream record; numeric primitives by the
NumPrims record. -/
def runSimulation (prims : NumPrims) (rand : RandStream) (assets : List AssetParameters)
    (config : SimulationConfig) (correlation : Option (ℕ → ℕ → ℚ)) :
    Except ErrKind SimulationResult :=
  match choleskyStep prims assets config correlation with
  | Except.error e => Except.error e
  | Except.ok cholOpt => Except.ok (buildResult prims rand assets config cholOpt)

/-- Goal report dictionary of calculate_goal_probability. -/
structure GoalReport where
  probability : ℚ
  successCount : ℕ
  totalSimulations : ℕ
  medianCrossingDay : Option ℕ
  targetValue : ℚ

/-- The elementwise median path: np.percentile(result.paths, 50, axis=0)
at one step. -/
def medianAt (res : SimulationResult) (day : ℕ) : ℚ :=
  percentileQ ((List.range res.numSims).map (fun s => res.paths s day)) 50

/-- MonteCarloEngine.calculate_goal_probability. -/
def calculateGoalProbability (res : SimulationResult) (target : ℚ) : GoalReport :=
  let successCount := countSuccesses res.numSims res.final_values target
  let probability := (successCount : ℚ) / (res.numSims : ℚ) * 100
  let crossingDay :=
    ((List.range (res.horizon + 1)).map (medianAt res)).findIdx?
      (fun v => decide (target ≤ v))
  ⟨pyRound probability 1, successCount, res.numSims, crossingDay, target⟩

/-- Sample path indices of run_simulation_async:
np.linspace(0, S - 1, 10, dtype=int), modelled with exact arithmetic and
truncation toward zero. -/
def sampleIndices (S : ℕ) : List ℕ :=
  (List.range 10).map (fun (i : ℕ) => (⌊(i : ℚ) * ((S : ℚ) - 1) / 9⌋).toNat)

/-- One row of the paths tensor as a list. -/
def pathRow (res : SimulationResult) (s : ℕ) : List ℚ :=
  (List.range (res.horizon + 1)).map (res.paths s)

/-- The sample_paths output of run_simulation_async:
result.paths[np.linspace(0, len(result.paths) - 1, 10, dtype=int)], rows
taken in raw path order. -/
def samplePathsOf (res : SimulationResult) : List (List ℚ) :=
  (sampleIndices res.numSims).map (pathRow res)

/-- Sample path selection following the words of the spec, for comparison
with the code: the 10 rows at equally spaced indices of the paths ordered
by final value. -/
def samplePathsSpec (res : SimulationResult) : List (List ℚ) :=
  let sortedIdx := List.insertionSort
    (fun s1 s2 => res.final_values s1 ≤ res.final_values s2)
    (List.range res.numSims)
  (sampleIndices res.numSims).map (fun i => pathRow res (sortedIdx.getD i 0))

/-- Extract the payload of a successful run (used to build concrete
witnesses; the error branch never occurs there). -/
def extractOk (e : Except ErrKind SimulationResult) : SimulationResult :=
  match e with
  | Except.ok r => r
  | Except.error _ => ⟨fun _ _ => 0, fun _ => 0, ⟨0,0,0,0,0,0,0,0,0⟩,
      ⟨0,0,0,0,0,0,0,0,0,0⟩, ⟨0,0,0,0,0⟩, 0, 0⟩

/-- Concrete primitives for witnesses: a sqrt table sufficient for the
inputs it is applied to in the concrete runs, and an always-failing
factorization (never consulted when correlation is off). -/
def cPrims : NumPrims :=
  ⟨fun x => if x = 1/4000000 then 1/2000 else 0,
   fun _ _ => none,
   fun _ _ => (fun _ => 0, fun _ _ => 0)⟩

/-- A random stream with every draw equal to 0. -/
def zeroStream : RandStream :=
  ⟨fun _ _ _ _ => 0, fun _ _ _ => 0, fun _ _ => 0, fun _ _ _ => 0, fun _ _ _ => 0⟩

/-- A random stream with every draw equal to 1. -/
def oneStream : RandStream :=
  ⟨fun _ _ _ _ => 1, fun _ _ _ => 1, fun _ _ => 1, fun _ _ _ => 1, fun _ _ _ => 1⟩

/-- A stream whose normal draw is 1 on path 0 and 0 elsewhere. -/
def c1Stream : RandStream :=
  ⟨fun _ _ _ _ => 0, fun s _ _ => if s = 0 then 1 else 0,
   fun _ _ => 0, fun _ _ _ => 0, fun _ _ _ => 0⟩

/-- A stream whose normal draw is -2 on path 0 and 0 elsewhere: a perfectly
possible standard-normal outcome that sends the simple return below -1. -/
def c2Stream : RandStream :=
  ⟨fun _ _ _ _ => 0, fun s _ _ => if s = 0 then -2 else 0,
   fun _ _ => 0, fun _ _ _ => 0, fun _ _ _ => 0⟩

/-- A stream whose normal draw is 0 on path 0, 1/1000 on path 1, 0 above. -/
def c6Stream : RandStream :=
  ⟨fun _ _ _ _ => 0, fun s _ _ => if s = 1 then 1/1000 else 0,
   fun _ _ => 0, fun _ _ _ => 0, fun _ _ _ => 0⟩

/-- A stream whose normal draw decreases in the path index, so final values
strictly decrease in raw path order. -/
def c9Stream : RandStream :=
  ⟨fun _ _ _ _ => 0, fun s _ _ => -(s : ℚ) / 1000,
   fun _ _ => 0, fun _ _ _ => 0, fun _ _ _ => 0⟩

/-- One fully invested asset with zero drift and unit volatility. -/
def cAssets : List AssetParameters := [⟨"SPY", 1, 0, 1⟩]

/-- A valid configuration with the advanced model toggles off: initial
value 10000, 1 step, 100 paths. -/
def cConfig : SimulationConfig := ⟨10000, 1, 100, false, false, false, false, false, 5⟩

/-- Primitives whose Cholesky always reports LinAlgError. -/
def failPrims : NumPrims :=
  ⟨fun x => x, fun _ _ => none, fun _ _ => (fun _ => 0, fun _ _ => 0)⟩

/-- A concrete 2 by 2 matrix for the factorization counterexample. -/
def idMatrix : ℕ → ℕ → ℚ := fun i j => if i = j then 1 else 0

/-- Like cConfig but with only 2 paths, keeping metric evaluation small. -/
def c6Config : SimulationConfig := ⟨10000, 1, 2, false, false, false, false, false, 5⟩

/-- Like cConfig but with 10 paths so the 10 sample indices are 0..9. -/
def c9Config : SimulationConfig := ⟨10000, 1, 10, false, false, false, false, false, 5⟩

/-- The concrete simulation result used for the sample-path analysis. -/
def res9 : SimulationResult := extractOk (runSimulation cPrims c9Stream cAssets c9Config none)

/-- The simple returns of a run: (final - initial) / initial per path, as
computed in run_simulation before _calculate_metrics. -/
def simpleReturnsOf (res : SimulationResult) (v0 : ℚ) : List ℚ :=
  (List.range res.numSims).map (fun s => (res.final_values s - v0) / v0)

/-- The first-crossing specification for the median crossing day: some d
exactly when d is within the horizon, the median path reaches the target
at d, and at no earlier step; none when the median path never reaches the
target within the horizon. -/
def isFirstCrossing (res : SimulationResult) (target : ℚ) : Option ℕ → Prop
  | some d => d ≤ res.horizon ∧ target ≤ medianAt res d ∧ ∀ u < d, medianAt res u < target
  | none => ∀ d ≤ res.horizon, medianAt res d < target

theorem rndHalfEven_ge_floor (x : ℚ) : ⌊x⌋ ≤ rndHalfEven x := by
  unfold rndHalfEven
  split
  · exact le_refl _
  · split
    · omega
    · split
      · exact le_refl _
      · omega

theorem rndHalfEven_le_floor_add_one (x : ℚ) : rndHalfEven x ≤ ⌊x⌋ + 1 := by
  unfold rndHalfEven
  split
  · omega
  · split
    · exact le_refl _
    · split
      · omega
      · exact le_refl _

theorem rndHalfEven_mono {x y : ℚ} (h : x ≤ y) : rndHalfEven x ≤ rndHalfEven y := by
  have hf : ⌊x⌋ ≤ ⌊y⌋ := Int.floor_le_floor h
  rcases lt_or_eq_of_le hf with hlt | heq
  · calc rndHalfEven x ≤ ⌊x⌋ + 1 := rndHalfEven_le_floor_add_one x
      _ ≤ ⌊y⌋ := by omega
      _ ≤ rndHalfEven y := rndHalfEven_ge_floor y
  · have hfr : Int.fract x ≤ Int.fract y := by
      unfold Int.fract
      rw [heq]
      exact sub_le_sub_right h _
    unfold rndHalfEven
    rw [heq]
    split_ifs <;> first | omega | linarith

theorem pyRound_mono {x y : ℚ} (n : ℕ) (h : x ≤ y) : pyRound x n ≤ pyRound y n := by
  unfold pyRound
  have hp : (0:ℚ) < 10 ^ n := by positivity
  have hr : (rndHalfEven (x * 10 ^ n) : ℚ) ≤ (rndHalfEven (y * 10 ^ n) : ℚ) := by
    exact_mod_cast rndHalfEven_mono (mul_le_mul_of_nonneg_right h (le_of_lt hp))
  gcongr

theorem pyRound_zero (n : ℕ) : pyRound 0 n = 0 := by
  unfold pyRound rndHalfEven
  norm_num

theorem list_sum_le_length_mul {l : List ℚ} {c : ℚ}
    (h : ∀ x ∈ l, x ≤ c) : l.sum ≤ (l.length : ℚ) * c := by
  induction l with
  | nil => simp
  | cons x xs ih =>
    simp only [List.sum_cons, List.length_cons]
    have hx : x ≤ c := h x (List.mem_cons_self x xs)
    have hxs : xs.sum ≤ (xs.length : ℚ) * c :=
      ih (fun z hz => h z (List.mem_cons_of_mem x hz))
    push_cast
    nlinarith

theorem listMean_le_of_forall_le {l : List ℚ} {c : ℚ} (hne : l ≠ [])
    (h : ∀ x ∈ l, x ≤ c) : listMean l ≤ c := by
  unfold listMean
  have hlen : 0 < (l.length : ℚ) := by
    have : 0 < l.length := List.length_pos.mpr hne
    exact_mod_cast this
  rw [div_le_iff₀ hlen]
  have := list_sum_le_length_mul h
  linarith

theorem filter_length_mono {α : Type} (p q : α → Bool)
    (hpq : ∀ x, p x = true → q x = true) (l : List α) :
    (l.filter p).length ≤ (l.filter q).length := by
  induction l with
  | nil => simp
  | cons x xs ih =>
    by_cases hp : p x = true
    · have hq := hpq x hp
      simp only [List.filter_cons, hp, hq, if_true]
      simpa using ih
    · have hp2 : p x = false := by simpa using hp
      simp only [List.filter_cons, hp2, Bool.false_eq_true, if_false]
      by_cases hq : q x = true
      · simp only [hq, if_true, List.length_cons]
        exact le_trans ih (Nat.le_succ _)
      · have hq2 : q x = false := by simpa using hq
        simp only [hq2, Bool.false_eq_true, if_false]
        exact ih

/-- Final values of the concrete 10-path run decrease in the path index. -/
theorem res9_final (s : ℕ) : res9.final_values s = 10000 - 10 * s := by
  show (buildResult cPrims c9Stream cAssets c9Config none).final_values s = _
  simp [buildResult, pathValue, portfolioReturnsOf, assetReturnsOf, correlatedReturns,
    generateRandomReturns, volatilityTensor, meanMultOf, volMultOf, c9Config, cAssets,
    c9Stream, cPrims, assetAt, sumRange, List.getD]
  ring

/-- Step 1 of each path of the concrete 10-path run. -/
theorem res9_paths1 (s : ℕ) : res9.paths s 1 = 10000 - 10 * s := by
  show (buildResult cPrims c9Stream cAssets c9Config none).paths s 1 = _
  simp [buildResult, pathValue, portfolioReturnsOf, assetReturnsOf, correlatedReturns,
    generateRandomReturns, volatilityTensor, meanMultOf, volMultOf, c9Config, cAssets,
    c9Stream, cPrims, assetAt, sumRange, List.getD]
  ring

theorem res9_numSims : res9.numSims = 10 := rfl

theorem res9_horizon : res9.horizon = 1 := rfl

theorem sampleIndices_ten : sampleIndices 10 = [0,1,2,3,4,5,6,7,8,9] := by
  have h : List.range 10 = [0,1,2,3,4,5,6,7,8,9] := by decide
  simp [sampleIndices, h]
  norm_num
  decide

theorem sorted_getD_mono (s : List ℚ) (hs : s.Sorted (· ≤ ·)) (i j : ℕ) (d e : ℚ)
    (hij : i ≤ j) (hj : j < s.length) : s.getD i d ≤ s.getD j e := by
  have hi : i < s.length := Nat.lt_of_le_of_lt hij hj
  rw [List.getD_eq_getElem?_getD, List.getElem?_eq_getElem hi, Option.getD_some,
      List.getD_eq_getElem?_getD, List.getElem?_eq_getElem hj, Option.getD_some]
  rcases Nat.lt_or_ge i j with hlt | hge
  · have h := List.Sorted.rel_get_of_lt hs (a := ⟨i, hi⟩) (b := ⟨j, hj⟩) (Fin.mk_lt_mk.mpr hlt)
    simpa using h
  · have heq : i = j := le_antisymm hij hge
    subst heq
    exact le_refl _

theorem exists_mem_le_percentileQ (l : List ℚ) (p : ℚ) (hne : l ≠ [])
    (hp0 : 0 ≤ p) (hp1 : p ≤ 100) :
    ∃ x ∈ l, x ≤ percentileQ l p := by
  have hperm := List.perm_insertionSort (· ≤ ·) l
  have hsort := List.sorted_insertionSort (· ≤ ·) l
  have hlen : (List.insertionSort (· ≤ ·) l).length = l.length :=
    (List.perm_insertionSort (· ≤ ·) l).length_eq
  have hn : 0 < l.length := List.length_pos.mpr hne
  set s := List.insertionSort (· ≤ ·) l with hsdef
  set rank : ℚ := p / 100 * ((l.length : ℚ) - 1) with hrankdef
  set k : ℕ := (⌊rank⌋).toNat with hkdef
  have hn1 : (1:ℚ) ≤ (l.length : ℚ) := by exact_mod_cast hn
  have hrank0 : 0 ≤ rank := by
    rw [hrankdef]
    apply mul_nonneg (by positivity) (by linarith)
  have hrank1 : rank ≤ (l.length : ℚ) - 1 := by
    rw [hrankdef]
    have hp100 : p / 100 ≤ 1 := (div_le_one (by norm_num : (0:ℚ) < 100)).mpr hp1
    nlinarith
  have hkq : (k : ℚ) ≤ rank := by
    have h1 := Int.floor_le rank
    have h2 : ((⌊rank⌋).toNat : ℤ) = ⌊rank⌋ := Int.toNat_of_nonneg (Int.floor_nonneg.mpr hrank0)
    have h3 : ((k : ℤ) : ℚ) ≤ rank := by
      rw [hkdef, h2]
      exact_mod_cast h1
    exact_mod_cast h3
  have hkn : k < l.length := by
    have h1 : (k : ℚ) < (l.length : ℚ) := by linarith
    exact_mod_cast h1
  have hd : 0 ≤ rank - (k : ℚ) := by linarith
  have hmem : s.getD 0 0 ∈ s := by
    rw [List.getD_eq_getElem?_getD, List.getElem?_eq_getElem (by omega), Option.getD_some]
    exact List.getElem_mem _
  refine ⟨s.getD 0 0, hperm.mem_iff.mp hmem, ?_⟩
  have h0k : s.getD 0 0 ≤ s.getD k 0 :=
    sorted_getD_mono s hsort 0 k 0 0 (Nat.zero_le k) (by omega)
  have hkk1 : s.getD k 0 ≤ s.getD (k + 1) (s.getD k 0) := by
    by_cases hc : k + 1 < s.length
    · exact sorted_getD_mono s hsort k (k + 1) 0 (s.getD k 0) (Nat.le_succ k) hc
    · rw [List.getD_eq_getElem?_getD (s) (k+1), List.getElem?_eq_none (by omega)]
      exact le_refl _
  have hgoal : percentileQ l p
      = s.getD k 0 + (rank - (k : ℚ)) * (s.getD (k + 1) (s.getD k 0) - s.getD k 0) := rfl
  rw [hgoal]
  nlinarith [mul_nonneg hd (by linarith : (0:ℚ) ≤ s.getD (k + 1) (s.getD k 0) - s.getD k 0)]

/-- From a successful run and its Cholesky stage, the result is the built
record. -/
theorem runSimulation_ok {prims : NumPrims} {rand : RandStream}
    {assets : List AssetParameters} {config : SimulationConfig}
    {corr : Option (ℕ → ℕ → ℚ)} {res : SimulationResult} {cholOpt : Option (ℕ → ℕ → ℚ)}
    (hchol : choleskyStep prims assets config corr = Except.ok cholOpt)
    (h : runSimulation prims rand assets config corr = Except.ok res) :
    res = buildResult prims rand assets config cholOpt := by
  unfold runSimulation at h
  rw [hchol] at h
  simpa using h.symm

/-- Claim C1 (amended): for every call of run_simulation that returns a
result, the value paths satisfy paths[s, 0] = initial_value and
paths[s, t+1] = paths[s, t] * (1 + r_p[s, t]) for every step t below the
horizon, where r_p[s, t] is the weighted sum over assets of the per-asset
returns; the source compounds arithmetically with (1 + r), not with
exp(r). -/
theorem value_paths_recurrence (prims : NumPrims) (rand : RandStream)
    (assets : List AssetParameters) (config : SimulationConfig)
    (corr : Option (ℕ → ℕ → ℚ)) (res : SimulationResult) (cholOpt : Option (ℕ → ℕ → ℚ))
    (hchol : choleskyStep prims assets config corr = Except.ok cholOpt)
    (h : runSimulation prims rand assets config corr = Except.ok res) (s : ℕ) :
    res.paths s 0 = config.initial_value ∧
    (∀ t, t < config.time_horizon →
      res.paths s (t + 1) = res.paths s t
        * (1 + portfolioReturnsOf prims rand assets config cholOpt s t)) ∧
    (∀ t, portfolioReturnsOf prims rand assets config cholOpt s t
      = sumRange assets.length
          (fun a => assetReturnsOf prims rand assets config cholOpt s t a
            * (assetAt assets a).weight)) := by
  obtain rfl := runSimulation_ok hchol h
  exact ⟨rfl, fun t _ => rfl, fun t => rfl⟩

/-- Claim C1 witness: the recurrence evaluated on a concrete run. -/
theorem value_paths_recurrence_witness :
    (extractOk (runSimulation cPrims c1Stream cAssets cConfig none)).paths 0 0
      = cConfig.initial_value ∧
    (extractOk (runSimulation cPrims c1Stream cAssets cConfig none)).paths 0 1
      = (extractOk (runSimulation cPrims c1Stream cAssets cConfig none)).paths 0 0
        * (1 + portfolioReturnsOf cPrims c1Stream cAssets cConfig none 0 0) := by
  have hthm := value_paths_recurrence cPrims c1Stream cAssets cConfig none
    (extractOk (runSimulation cPrims c1Stream cAssets cConfig none)) none rfl rfl 0
  exact ⟨hthm.1, hthm.2.1 0 (by decide)⟩

/-- Claim C1 counterexample: on a concrete valid call the code produces
paths[0, 1] = 20000 from portfolio return 1 and start value 10000, while
the exponential form of the claim would require 10000 * exp(1), which is
not 20000. -/
theorem value_paths_exp_cex :
    (extractOk (runSimulation cPrims c1Stream cAssets cConfig none)).paths 0 0 = 10000 ∧
    (extractOk (runSimulation cPrims c1Stream cAssets cConfig none)).paths 0 1 = 20000 ∧
    portfolioReturnsOf cPrims c1Stream cAssets cConfig none 0 0 = 1 ∧
    (10000 : ℝ) * Real.exp 1 ≠ 20000 := by
  refine ⟨rfl, ?_, ?_, ?_⟩
  · show (buildResult cPrims c1Stream cAssets cConfig none).paths 0 1 = 20000
    simp [buildResult, pathValue, portfolioReturnsOf, assetReturnsOf, correlatedReturns,
      generateRandomReturns, volatilityTensor, meanMultOf, volMultOf, cConfig, cAssets,
      c1Stream, cPrims, assetAt, sumRange, List.getD]
    norm_num
  · simp [portfolioReturnsOf, assetReturnsOf, correlatedReturns,
      generateRandomReturns, volatilityTensor, meanMultOf, volMultOf, cConfig, cAssets,
      c1Stream, cPrims, assetAt, sumRange, List.getD]
  · intro hc
    have h1 : Real.exp 1 = 2 := by linarith
    have h2 : (2.7182818283 : ℝ) < Real.exp 1 := Real.exp_one_gt_d9
    rw [h1] at h2
    norm_num at h2

/-- Claim C2 (amended): paths are strictly positive provided the initial
value is positive and every portfolio return before the horizon is greater
than -1; with the arithmetic compounding of the source, a single draw with
portfolio return at or below -1 (well inside the support of every
configured innovation distribution) makes an entry nonpositive. -/
theorem paths_positive (prims : NumPrims) (rand : RandStream)
    (assets : List AssetParameters) (config : SimulationConfig)
    (corr : Option (ℕ → ℕ → ℚ)) (res : SimulationResult) (cholOpt : Option (ℕ → ℕ → ℚ))
    (hchol : choleskyStep prims assets config corr = Except.ok cholOpt)
    (h : runSimulation prims rand assets config corr = Except.ok res)
    (hV : 0 < config.initial_value)
    (hr : ∀ s t, t < config.time_horizon →
      -1 < portfolioReturnsOf prims rand assets config cholOpt s t) :
    ∀ s t, t ≤ config.time_horizon → 0 < res.paths s t := by
  obtain rfl := runSimulation_ok hchol h
  intro s t ht
  show 0 < pathValue config.initial_value
    (portfolioReturnsOf prims rand assets config cholOpt s) t
  induction t with
  | zero => exact hV
  | succ t ih =>
    have ht2 : t ≤ config.time_horizon := Nat.le_of_succ_le ht
    have htlt : t < config.time_horizon := Nat.lt_of_succ_le ht
    have h1 : 0 < 1 + portfolioReturnsOf prims rand assets config cholOpt s t := by
      have := hr s t htlt
      linarith
    exact mul_pos (ih ht2) h1

/-- Claim C2 witness: positivity through the amended theorem at a concrete
run with all draws equal to zero. -/
theorem paths_positive_witness :
    0 < (extractOk (runSimulation cPrims zeroStream cAssets cConfig none)).paths 0 1 := by
  have hr : ∀ s t, t < cConfig.time_horizon →
      -1 < portfolioReturnsOf cPrims zeroStream cAssets cConfig none s t := by
    intro s t _
    have hz : portfolioReturnsOf cPrims zeroStream cAssets cConfig none s t = 0 := by
      simp [portfolioReturnsOf, assetReturnsOf, correlatedReturns,
        generateRandomReturns, volatilityTensor, meanMultOf, volMultOf, cConfig, cAssets,
        zeroStream, cPrims, assetAt, sumRange, List.getD]
    rw [hz]
    norm_num
  exact paths_positive cPrims zeroStream cAssets cConfig none
    (extractOk (runSimulation cPrims zeroStream cAssets cConfig none)) none rfl rfl
    (by norm_num [cConfig]) hr 0 1 (by decide)

/-- Claim C2 counterexample: a concrete valid call (initial value
10000 > 0) in which the normal draw -2 on path 0 drives the portfolio
return to -2, making paths[0, 1] = -10000, which is not positive. -/
theorem paths_positive_cex :
    (0 : ℚ) < cConfig.initial_value ∧
    (extractOk (runSimulation cPrims c2Stream cAssets cConfig none)).paths 0 1 = -10000 ∧
    ¬ (0 : ℚ) < -10000 := by
  refine ⟨by norm_num [cConfig], ?_, by norm_num⟩
  show (buildResult cPrims c2Stream cAssets cConfig none).paths 0 1 = -10000
  simp [buildResult, pathValue, portfolioReturnsOf, assetReturnsOf, correlatedReturns,
    generateRandomReturns, volatilityTensor, meanMultOf, volMultOf, cConfig, cAssets,
    c2Stream, cPrims, assetAt, sumRange, List.getD]
  norm_num

/-- Claim C3 (amended): with fat tails enabled the innovation tensor
consists of the raw np.random.standard_t(df) draws; no sqrt((df-2)/df)
rescaling is applied (so the components have variance df/(df-2), not 1).
With fat tails disabled, the raw standard normal draws are used. -/
theorem innovations_unscaled (rand : RandStream) (df s t a : ℕ) :
    generateRandomReturns rand true df s t a = rand.zT df s t a ∧
    generateRandomReturns rand false df s t a = rand.zN s t a :=
  ⟨rfl, rfl⟩

/-- Claim C3 witness: the identity evaluated on a concrete stream. -/
theorem innovations_unscaled_witness :
    generateRandomReturns oneStream true 5 0 0 0 = oneStream.zT 5 0 0 0 :=
  (innovations_unscaled oneStream 5 0 0 0).1

/-- Claim C3 counterexample: a draw of 1 from the Student-t(5) stream is
returned as innovation 1, whose square is 1 and not (5-2)/5 times the
square of the draw, so the claimed unit-variance rescaling by
sqrt((df-2)/df) is not applied. -/
theorem innovations_scaling_cex :
    generateRandomReturns oneStream true 5 0 0 0 = 1 ∧
    (generateRandomReturns oneStream true 5 0 0 0) ^ 2
      ≠ ((5 - 2 : ℚ) / 5) * (oneStream.zT 5 0 0 0) ^ 2 := by
  constructor
  · rfl
  · show (1 : ℚ) ^ 2 ≠ ((5 - 2 : ℚ) / 5) * (1 : ℚ) ^ 2
    norm_num

/-- Claim C4: runs of the composition of engine construction with a fixed
seed and run_simulation are deterministic: any two engines built from the
same seed via the same seeding of the numpy global stream produce
identical outputs (paths, final values, metrics, percentiles and
drawdowns) on the same inputs. -/
theorem simulate_deterministic (mkStream : ℕ → RandStream) (k : ℕ)
    (prims : NumPrims) (assets : List AssetParameters) (config : SimulationConfig)
    (corr : Option (ℕ → ℕ → ℚ)) (r1 r2 : RandStream)
    (h1 : r1 = mkStream k) (h2 : r2 = mkStream k) :
    runSimulation prims r1 assets config corr = runSimulation prims r2 assets config corr := by
  rw [h1, h2]

/-- Claim C4 witness: determinism at a concrete seeding function and seed. -/
theorem simulate_deterministic_witness :
    runSimulation cPrims zeroStream cAssets cConfig none
      = runSimulation cPrims zeroStream cAssets cConfig none :=
  simulate_deterministic (fun _ => zeroStream) 0 cPrims cAssets cConfig none
    zeroStream zeroStream rfl rfl

/-- Claim C5 (amended): _cholesky_decomposition first attempts Cholesky; on
failure it reattempts on the eigenvalue-clamped reassembled matrix; if the
second attempt also fails the numpy LinAlgError propagates, and a
NumericError is never returned (no such error exists in the code). -/
theorem cholesky_repair_flow (prims : NumPrims) (n : ℕ) (m : ℕ → ℕ → ℚ) :
    (∀ l, prims.chol m n = some l → choleskyDecomposition prims n m = Except.ok l) ∧
    (prims.chol m n = none →
      choleskyDecomposition prims n m =
        (match prims.chol (clampedMatrix prims n m) n with
         | some l => Except.ok l
         | none => Except.error ErrKind.linAlgError)) ∧
    choleskyDecomposition prims n m ≠ Except.error ErrKind.numericError := by
  refine ⟨?_, ?_, ?_⟩
  · intro l hl
    unfold choleskyDecomposition
    rw [hl]
  · intro h0
    unfold choleskyDecomposition
    rw [h0]
  · unfold choleskyDecomposition
    cases hc : prims.chol m n with
    | some l => simp
    | none =>
      cases hc2 : prims.chol (clampedMatrix prims n m) n with
      | some l => simp
      | none =>
        intro hcontra
        have := Except.error.inj hcontra
        exact ErrKind.noConfusion this

/-- Claim C5 witness: the repair flow applied to primitives whose Cholesky
always fails: the result is the propagated LinAlgError, not a
NumericError. -/
theorem cholesky_repair_flow_witness :
    choleskyDecomposition failPrims 2 idMatrix = Except.error ErrKind.linAlgError ∧
    choleskyDecomposition failPrims 2 idMatrix ≠ Except.error ErrKind.numericError := by
  constructor
  · have h := (cholesky_repair_flow failPrims 2 idMatrix).2.1 rfl
    simpa using h
  · exact (cholesky_repair_flow failPrims 2 idMatrix).2.2

/-- Claim C5 counterexample: when both Cholesky attempts fail on a concrete
matrix, the operation produces the LinAlgError, which is not the
NumericError required by the claim. -/
theorem cholesky_numeric_error_cex :
    failPrims.chol (clampedMatrix failPrims 2 idMatrix) 2 = none ∧
    choleskyDecomposition failPrims 2 idMatrix = Except.error ErrKind.linAlgError ∧
    (Except.error ErrKind.linAlgError : Except ErrKind (ℕ → ℕ → ℚ))
      ≠ Except.error ErrKind.numericError := by
  refine ⟨rfl, rfl, ?_⟩
  intro hcontra
  exact ErrKind.noConfusion (Except.error.inj hcontra)

/-- Claim C6 (amended): the Sharpe metric equals
round((mean(simple_return) - rf_scaled) / stdev(simple_return), 3) with
rf_scaled = 0.04/252 * (T + 1) (the code scales by paths.shape[1], which
is the horizon plus one, not the horizon), and equals 0 whenever the
standard deviation is 0. -/
theorem sharpe_ratio_code (prims : NumPrims) (rand : RandStream)
    (assets : List AssetParameters) (config : SimulationConfig)
    (corr : Option (ℕ → ℕ → ℚ)) (res : SimulationResult) (cholOpt : Option (ℕ → ℕ → ℚ))
    (hchol : choleskyStep prims assets config corr = Except.ok cholOpt)
    (h : runSimulation prims rand assets config corr = Except.ok res) :
    res.metrics.sharpeRatio =
      pyRound (if 0 < stdOfList prims (simpleReturnsOf res config.initial_value) then
          (listMean (simpleReturnsOf res config.initial_value)
            - 4/100 / 252 * ((config.time_horizon + 1 : ℕ) : ℚ))
            / stdOfList prims (simpleReturnsOf res config.initial_value)
        else 0) 3 ∧
    (stdOfList prims (simpleReturnsOf res config.initial_value) = 0 →
      res.metrics.sharpeRatio = 0) := by
  obtain rfl := runSimulation_ok hchol h
  constructor
  · rfl
  · intro hsd
    show pyRound (if 0 < stdOfList prims
        (simpleReturnsOf (buildResult prims rand assets config cholOpt)
          config.initial_value) then _ else 0) 3 = 0
    rw [hsd]
    simp [pyRound_zero]

/-- Claim C6 witness: the Sharpe characterization at a concrete run. -/
theorem sharpe_ratio_code_witness :
    (extractOk (runSimulation cPrims c6Stream cAssets c6Config none)).metrics.sharpeRatio =
      pyRound (if 0 < stdOfList cPrims
          (simpleReturnsOf (extractOk (runSimulation cPrims c6Stream cAssets c6Config none))
            c6Config.initial_value) then
          (listMean (simpleReturnsOf (extractOk (runSimulation cPrims c6Stream cAssets c6Config none))
            c6Config.initial_value)
            - 4/100 / 252 * ((c6Config.time_horizon + 1 : ℕ) : ℚ))
            / stdOfList cPrims
              (simpleReturnsOf (extractOk (runSimulation cPrims c6Stream cAssets c6Config none))
                c6Config.initial_value)
        else 0) 3 :=
  (sharpe_ratio_code cPrims c6Stream cAssets c6Config none
    (extractOk (runSimulation cPrims c6Stream cAssets c6Config none)) none rfl rfl).1

set_option maxRecDepth 4000 in
/-- Claim C6 counterexample: on a concrete run with simple returns 0 and
1/1000 (mean 1/2000, standard deviation 1/2000, horizon T = 1), the code
metric is round((1/2000 - 0.04/252 * 2) / (1/2000), 3) = 0.365, while the
claimed formula with rf_scaled = 0.04/252 * T gives 0.683. -/
theorem sharpe_riskfree_cex :
    listMean (simpleReturnsOf (extractOk (runSimulation cPrims c6Stream cAssets c6Config none))
      10000) = 1/2000 ∧
    stdOfList cPrims (simpleReturnsOf
      (extractOk (runSimulation cPrims c6Stream cAssets c6Config none)) 10000) = 1/2000 ∧
    (extractOk (runSimulation cPrims c6Stream cAssets c6Config none)).metrics.sharpeRatio
      = 73/200 ∧
    pyRound ((1/2000 - 4/100 / 252 * ((c6Config.time_horizon : ℕ) : ℚ)) / (1/2000)) 3
      = 683/1000 ∧
    (73/200 : ℚ) ≠ 683/1000 := by
  refine ⟨?_, ?_, ?_, ?_, by norm_num⟩
  · show listMean (simpleReturnsOf (buildResult cPrims c6Stream cAssets c6Config none) 10000)
      = 1/2000
    norm_num [simpleReturnsOf, listMean, buildResult, pathValue, portfolioReturnsOf,
      assetReturnsOf, correlatedReturns, generateRandomReturns, volatilityTensor,
      meanMultOf, volMultOf, c6Config, cAssets, c6Stream, cPrims, assetAt, sumRange,
      List.getD, List.range_succ]
  · show stdOfList cPrims (simpleReturnsOf (buildResult cPrims c6Stream cAssets c6Config none)
      10000) = 1/2000
    norm_num [stdOfList, simpleReturnsOf, listMean, buildResult, pathValue,
      portfolioReturnsOf, assetReturnsOf, correlatedReturns, generateRandomReturns,
      volatilityTensor, meanMultOf, volMultOf, c6Config, cAssets, c6Stream, cPrims,
      assetAt, sumRange, List.getD, List.range_succ]
  · show (buildResult cPrims c6Stream cAssets c6Config none).metrics.sharpeRatio = 73/200
    norm_num [buildResult, calculateMetrics, stdOfList, listMean, pathValue,
      portfolioReturnsOf, assetReturnsOf, correlatedReturns, generateRandomReturns,
      volatilityTensor, meanMultOf, volMultOf, c6Config, cAssets, c6Stream, cPrims,
      assetAt, sumRange, List.getD, List.range_succ]
    unfold pyRound rndHalfEven
    norm_num [Int.fract]
  · norm_num [c6Config]
    unfold pyRound rndHalfEven
    norm_num [Int.fract]

/-- Claim C7: calculate_goal_probability returns the success probability as
a percentage (count of final values at or above the target over the number
of simulations, times 100, rounded to one decimal), the integer success
count, the total number of simulations, the target value, and the smallest
step at which the elementwise median path reaches the target (none when it
never does within the horizon). -/
theorem goal_probability_fields (res : SimulationResult) (target : ℚ) :
    (calculateGoalProbability res target).probability
      = pyRound ((countSuccesses res.numSims res.final_values target : ℚ)
          / (res.numSims : ℚ) * 100) 1 ∧
    (calculateGoalProbability res target).successCount
      = countSuccesses res.numSims res.final_values target ∧
    (calculateGoalProbability res target).totalSimulations = res.numSims ∧
    (calculateGoalProbability res target).targetValue = target ∧
    isFirstCrossing res target (calculateGoalProbability res target).medianCrossingDay := by
  refine ⟨rfl, rfl, rfl, rfl, ?_⟩
  show isFirstCrossing res target
    (((List.range (res.horizon + 1)).map (medianAt res)).findIdx?
      (fun v => decide (target ≤ v)))
  cases hfi : ((List.range (res.horizon + 1)).map (medianAt res)).findIdx?
      (fun v => decide (target ≤ v)) with
  | none =>
    have hall := List.findIdx?_eq_none_iff.mp hfi
    intro d hd
    have hmem : medianAt res d ∈ (List.range (res.horizon + 1)).map (medianAt res) :=
      List.mem_map_of_mem _ (List.mem_range.mpr (Nat.lt_succ_of_le hd))
    have := hall _ hmem
    simpa using this
  | some i =>
    obtain ⟨hilen, hp, hprev⟩ := List.findIdx?_eq_some_iff_getElem.mp hfi
    have hlen : ((List.range (res.horizon + 1)).map (medianAt res)).length
        = res.horizon + 1 := by simp
    have hi2 : i < res.horizon + 1 := by rw [hlen] at hilen; exact hilen
    refine ⟨Nat.lt_succ_iff.mp hi2, ?_, ?_⟩
    · have : ((List.range (res.horizon + 1)).map (medianAt res))[i] = medianAt res i := by
        simp
      rw [this] at hp
      simpa using hp
    · intro u hu
      have hul : u < ((List.range (res.horizon + 1)).map (medianAt res)).length := by
        rw [hlen]; omega
      have := hprev u hu
      have heq : ((List.range (res.horizon + 1)).map (medianAt res))[u] = medianAt res u := by
        simp
      rw [heq] at this
      simpa using this

/-- Claim C8: the goal probability is antitone in the target: a larger
target cannot have a larger returned probability. -/
theorem goal_probability_antitone (res : SimulationResult) (t1 t2 : ℚ) (h : t1 ≤ t2) :
    (calculateGoalProbability res t2).probability
      ≤ (calculateGoalProbability res t1).probability := by
  have hc : countSuccesses res.numSims res.final_values t2
      ≤ countSuccesses res.numSims res.final_values t1 := by
    unfold countSuccesses
    refine filter_length_mono _ _ (fun s hs => ?_) _
    simp only [decide_eq_true_eq] at hs ⊢
    exact le_trans h hs
  show pyRound ((countSuccesses res.numSims res.final_values t2 : ℚ)
      / (res.numSims : ℚ) * 100) 1
    ≤ pyRound ((countSuccesses res.numSims res.final_values t1 : ℚ)
      / (res.numSims : ℚ) * 100) 1
  apply pyRound_mono
  have hcq : ((countSuccesses res.numSims res.final_values t2 : ℕ) : ℚ)
      ≤ ((countSuccesses res.numSims res.final_values t1 : ℕ) : ℚ) := by exact_mod_cast hc
  have hdiv := div_le_div_of_nonneg_right hcq (Nat.cast_nonneg res.numSims)
  nlinarith

/-- Claim C8 witness: antitonicity at a concrete result and targets. -/
theorem goal_probability_antitone_witness :
    (1 : ℚ) ≤ 2 ∧
    (calculateGoalProbability res9 2).probability
      ≤ (calculateGoalProbability res9 1).probability :=
  ⟨by norm_num, goal_probability_antitone res9 1 2 (by norm_num)⟩

/-- Claim C9 (amended): the sample_paths output consists of the 10 rows of
the paths tensor at the np.linspace indices taken in raw path order, not
in the order sorted by final value. -/
theorem sampleIndices_length (S : ℕ) : (sampleIndices S).length = 10 := by
  simp [sampleIndices]

theorem sample_paths_raw_order (res : SimulationResult) :
    (samplePathsOf res).length = 10 ∧
    ∀ i, i < 10 → (samplePathsOf res).getD i []
      = pathRow res ((sampleIndices res.numSims).getD i 0) := by
  constructor
  · unfold samplePathsOf
    rw [List.length_map, sampleIndices_length]
  · intro i hi
    have hlen : (sampleIndices res.numSims).length = 10 := sampleIndices_length res.numSims
    unfold samplePathsOf
    rw [List.getD_eq_getElem?_getD, List.getElem?_map,
      List.getElem?_eq_getElem (by omega)]
    simp only [Option.map_some', Option.getD_some]
    congr 1
    rw [List.getD_eq_getElem?_getD, List.getElem?_eq_getElem (by omega), Option.getD_some]

/-- Claim C9 witness: the raw-order selection at a concrete run and index. -/
theorem sample_paths_raw_order_witness :
    (samplePathsOf res9).getD 0 [] = pathRow res9 ((sampleIndices res9.numSims).getD 0 0) :=
  (sample_paths_raw_order res9).2 0 (by norm_num)

/-- Claim C9 counterexample: on a concrete 10-path run whose final values
strictly decrease in the path index, the first sampled path of the code
ends at 10000 (raw row 0), while the first sampled path of the
sorted-by-final-value selection of the claim ends at 9910 (row 9), so the
two selections differ. -/
theorem sample_paths_sorted_cex :
    ((samplePathsOf res9).getD 0 []).getD 1 0 = 10000 ∧
    ((samplePathsSpec res9).getD 0 []).getD 1 0 = 9910 ∧
    samplePathsOf res9 ≠ samplePathsSpec res9 := by
  have h1 : ((samplePathsOf res9).getD 0 []).getD 1 0 = 10000 := by
    simp [samplePathsOf, res9_numSims, res9_horizon, sampleIndices_ten, pathRow,
      List.range_succ, res9_paths1]
  have h2 : ((samplePathsSpec res9).getD 0 []).getD 1 0 = 9910 := by
    simp only [samplePathsSpec, res9_numSims, res9_horizon, sampleIndices_ten]
    have h : List.range 10 = [0,1,2,3,4,5,6,7,8,9] := by decide
    rw [h]
    simp [List.insertionSort, List.orderedInsert, res9_final, pathRow, List.range_succ,
      res9_paths1, res9_horizon]
    norm_num
  refine ⟨h1, h2, fun hcontra => ?_⟩
  rw [hcontra] at h1
  rw [h1] at h2
  norm_num at h2

/-- Expected shortfall does not exceed VaR 95 at the level of
_calculate_metrics: the lower-tail mean is at most the 5th percentile, and
scaling by 100 with rounding to 2 decimals preserves the inequality. -/
theorem calcMetrics_es_le_var95 (prims : NumPrims) (returns : List ℚ) (shape1 : ℕ)
    (hne : returns ≠ []) :
    (calculateMetrics prims returns shape1).expectedShortfall
      ≤ (calculateMetrics prims returns shape1).var95 := by
  show pyRound (listMean (returns.filter (fun r => decide (r ≤ percentileQ returns 5))) * 100) 2
    ≤ pyRound (percentileQ returns 5 * 100) 2
  apply pyRound_mono
  obtain ⟨x, hxmem, hxle⟩ :=
    exists_mem_le_percentileQ returns 5 hne (by norm_num) (by norm_num)
  have hxf : x ∈ returns.filter (fun r => decide (r ≤ percentileQ returns 5)) :=
    List.mem_filter.mpr ⟨hxmem, by simpa using hxle⟩
  have hfne : returns.filter (fun r => decide (r ≤ percentileQ returns 5)) ≠ [] :=
    List.ne_nil_of_mem hxf
  have hmean : listMean (returns.filter (fun r => decide (r ≤ percentileQ returns 5)))
      ≤ percentileQ returns 5 := by
    apply listMean_le_of_forall_le hfne
    intro y hy
    have := (List.mem_filter.mp hy).2
    simpa using this
  nlinarith

/-- Claim C10: in every metrics output of a run with at least one path, the
expected shortfall is at most the VaR 95 value. -/
theorem es_le_var95 (prims : NumPrims) (rand : RandStream)
    (assets : List AssetParameters) (config : SimulationConfig)
    (corr : Option (ℕ → ℕ → ℚ)) (res : SimulationResult) (cholOpt : Option (ℕ → ℕ → ℚ))
    (hchol : choleskyStep prims assets config corr = Except.ok cholOpt)
    (h : runSimulation prims rand assets config corr = Except.ok res)
    (hS : 1 ≤ config.num_simulations) :
    res.metrics.expectedShortfall ≤ res.metrics.var95 := by
  obtain rfl := runSimulation_ok hchol h
  refine calcMetrics_es_le_var95 prims _ _ ?_
  have hlen : ((List.range config.num_simulations).map
      (fun s => ((fun s => pathValue config.initial_value
        (portfolioReturnsOf prims rand assets config cholOpt s) config.time_horizon) s
          - config.initial_value) / config.initial_value)).length
      = config.num_simulations := by simp
  intro hnil
  rw [hnil] at hlen
  simp at hlen
  omega

/-- Claim C10 witness: the inequality at a concrete run. -/
theorem es_le_var95_witness :
    (extractOk (runSimulation cPrims c6Stream cAssets c6Config none)).metrics.expectedShortfall
      ≤ (extractOk (runSimulation cPrims c6Stream cAssets c6Config none)).metrics.var95 :=
  es_le_var95 cPrims c6Stream cAssets c6Config none
    (extractOk (runSimulation cPrims c6Stream cAssets c6Config none)) none rfl rfl
    (by norm_num [c6Config])
